import Mathlib

/-!
# Dual-flow coordinator of gotapdance (`tapdance/conn_dual.go`)

A shallow embedding of `dialSplitFlow`, of the methods of `DualConn` and of the
close-propagation goroutine, together with the properties of the handshake,
of the delegation of the `net.Conn` surface and of `idStr`.

Pointers are embedded by value: a `TapdanceFlowConn` carries the raw connection
it wraps (`tdRaw`), so that the mutations a flow performs on its raw connection
while dialing are visible where the source reads `rawRConn.decoySpec`.
Calls into collaborators are recorded, in program order, in a list of events.
-/

namespace Tapdance

/-! ## Data model -/

/-- A Go `error` value, identified with the text its `Error()` method returns. -/
structure GoError where
  msg : String
deriving DecidableEq, Repr

/-- The function `errors.New` of the Go standard library. -/
def errorsNew (text : String) : GoError := ⟨text⟩

/-- The method `Error()` of a Go error. -/
def GoError.Error (e : GoError) : String := e.msg

/-- Modelled from the spec: the type `tdTagType` is declared outside
`conn_dual.go`; the spec lists the two tag kinds used here. -/
inductive tdTagType where
  | tagHttpGetIncomplete
  | tagHttpPostIncomplete
deriving DecidableEq, Repr

/-- Modelled from the spec: the type `flowType` is declared outside
`conn_dual.go`; the spec lists the roles ReadOnly and Upload. -/
inductive flowType where
  | flowUpload
  | flowReadOnly
deriving DecidableEq, Repr

/-- A decoy descriptor; `none` is the nil descriptor of a fresh raw connection. -/
abbrev DecoySpec := Option String

/-- A `customDialer` function value, identified by a handle; `none` is nil. -/
abbrev Dialer := Option Nat

/-- Modelled from the spec: the struct `tdRawConn` is declared outside
`conn_dual.go`; these are the fields the spec lists for a raw flow (tag kind,
station key, correlation id, and the mutable fields `customDialer`,
`sessionId`, `strIdSuffix`, `decoySpec`, `pinDecoySpec`). -/
structure tdRawConn where
  tagType : tdTagType
  stationPubkey : List Nat
  remoteConnId : List Nat
  customDialer : Dialer
  sessionId : Nat
  strIdSuffix : String
  decoySpec : DecoySpec
  pinDecoySpec : Bool
deriving DecidableEq, Repr

/-- Modelled from the spec: `makeTdRaw(tag, stationPubkey, remoteConnId)` is
defined outside `conn_dual.go`; it produces an unconnected raw flow configured
with the tag kind, the station key and the correlation id, every other field
holding its zero value. -/
def makeTdRaw (handshakeType : tdTagType) (stationPubkey remoteConnId : List Nat) :
    tdRawConn :=
  { tagType := handshakeType
    stationPubkey := stationPubkey
    remoteConnId := remoteConnId
    customDialer := none
    sessionId := 0
    strIdSuffix := ""
    decoySpec := none
    pinDecoySpec := false }

/-- An operation of the duplex-socket surface performed on a flow. -/
inductive FlowCall where
  | Read (b : List Nat)
  | Write (b : List Nat)
  | Close
  | LocalAddr
  | RemoteAddr
  | SetDeadline (t : Nat)
  | SetReadDeadline (t : Nat)
  | SetWriteDeadline (t : Nat)
  | NetworkConn
deriving DecidableEq, Repr

/-- Modelled from the spec: the struct `TapdanceFlowConn` is declared outside
`conn_dual.go`. A flow knows its role and the raw flow it wraps, has a
close-once latch carrying a terminal error (`closeErr`) and a one-shot closed
signal (`closed`), and offers the duplex-socket operations; the two deadlines
are those of its socket. -/
structure TapdanceFlowConn where
  flowType : flowType
  tdRaw : tdRawConn
  closed : Bool
  closeErr : Option GoError
  readDeadline : Option Nat
  writeDeadline : Option Nat
deriving DecidableEq, Repr

/-- Names one of the two flow pointers of a `DualConn`. -/
inductive FlowRef where
  | readerConn
  | writerConn
deriving DecidableEq, Repr

/-- The struct `DualConn`: the embedded `net.Conn` interface value (nil, or the
flow it points to), the two flow pointers (nil or a flow) and the session id. -/
structure DualConn where
  Conn : Option FlowRef
  writerConn : Option TapdanceFlowConn
  readerConn : Option TapdanceFlowConn
  sessionId : Nat
deriving DecidableEq, Repr

/-- The behaviour of the collaborators that `conn_dual.go` calls and that are
defined elsewhere: the session counter, the asset store, the random source, the
error result of `makeTdFlow`, the effect and error result of `Dial`,
`yieldUpload` and `acquireUpload` on a flow, the effect and results of reading
from a flow, of writing to it and of setting its deadlines, its addresses and
socket, and the cause with which a flow closes itself when the application
closes it. -/
structure Collab where
  sessionsTotal : Nat
  pubkey : List Nat
  randBytes : List Nat
  wrapErr : flowType → tdRawConn → Option GoError
  Dial : TapdanceFlowConn → TapdanceFlowConn × Option GoError
  yieldUpload : TapdanceFlowConn → TapdanceFlowConn × Option GoError
  acquireUpload : TapdanceFlowConn → TapdanceFlowConn × Option GoError
  flowRead : TapdanceFlowConn → List Nat → TapdanceFlowConn × (List Nat × Nat × Option GoError)
  flowWrite : TapdanceFlowConn → List Nat → TapdanceFlowConn × (Nat × Option GoError)
  flowSetDeadline : TapdanceFlowConn → Nat → TapdanceFlowConn × Option GoError
  flowSetReadDeadline : TapdanceFlowConn → Nat → TapdanceFlowConn × Option GoError
  flowSetWriteDeadline : TapdanceFlowConn → Nat → TapdanceFlowConn × Option GoError
  localAddr : TapdanceFlowConn → String
  remoteAddr : TapdanceFlowConn → String
  networkConn : TapdanceFlowConn → Nat
  appCloseCause : GoError

/-- The call `sessionsTotal.GetAndInc()`: the value of the 64-bit counter. -/
def Collab.GetAndInc (c : Collab) : Nat := c.sessionsTotal % 2 ^ 64

/-- The call `rand.Read(buf)`: overwrites the front of `buf` with the bytes the
random source delivers; the length of `buf` does not change. -/
def randRead (src buf : List Nat) : List Nat :=
  (src.take buf.length).map (· % 256) ++ buf.drop (src.take buf.length).length

/-- The flow `makeTdFlow` returns: of the given role, around the given raw
flow, open, with no terminal error and no deadline. -/
def freshFlow (flow : flowType) (tdRaw : tdRawConn) : TapdanceFlowConn :=
  { flowType := flow, tdRaw := tdRaw, closed := false, closeErr := none,
    readDeadline := none, writeDeadline := none }

/-- Modelled from the spec: `makeTdFlow(flow, tdRaw)` is defined outside
`conn_dual.go`; it wraps a raw flow into a flow of the given role, or fails.
The fresh flow is open, with no terminal error and no deadline. -/
def makeTdFlow (c : Collab) (flow : flowType) (tdRaw : tdRawConn) :
    Except GoError TapdanceFlowConn :=
  match c.wrapErr flow tdRaw with
  | some err => .error err
  | none => .ok (freshFlow flow tdRaw)

/-- Modelled from the spec: `closeWithErrorOnce(err)` is defined outside
`conn_dual.go`; it is the close-once latch of a flow: the first call fires the
closed signal and stores the terminal error, every later call is a no-op. -/
def TapdanceFlowConn.closeWithErrorOnce (f : TapdanceFlowConn) (err : GoError) :
    TapdanceFlowConn :=
  if f.closed then f else { f with closed := true, closeErr := some err }

/-! ## Events -/

/-- A call from `conn_dual.go` into a collaborator, with its arguments and, for
the fallible calls, the error it returned. -/
inductive Event where
  | makeTdRaw (tag : tdTagType) (stationPubkey remoteConnId : List Nat)
  | makeTdFlow (flow : flowType) (tdRaw : tdRawConn) (err : Option GoError)
  | Dial (who : FlowRef) (err : Option GoError)
  | yieldUpload (who : FlowRef) (err : Option GoError)
  | acquireUpload (who : FlowRef) (err : Option GoError)
  | closeWithErrorOnce (who : FlowRef) (err : GoError)
  | goWatcher
deriving DecidableEq, Repr

/-- What `dialSplitFlow` returns, `(net.Conn, error)`, and the events it
performed. -/
structure DialResult where
  conn : Option DualConn
  err : Option GoError
  trace : List Event
deriving DecidableEq, Repr

/-! ## `dialSplitFlow` -/

/-- The function `dialSplitFlow` (lines 39-125). The local `rawRConn` is the
pointer the reader flow wraps, so that line 80 reads the `decoySpec` of the raw
connection inside the reader flow as `Dial` and `yieldUpload` left it. -/
def dialSplitFlow (c : Collab) (customDialer : Dialer) : DialResult :=
  let dualConn : DualConn :=
    { Conn := none, writerConn := none, readerConn := none, sessionId := c.GetAndInc }
  let stationPubkey := c.pubkey
  let remoteConnId := randRead c.randBytes (List.replicate 16 0)
  let rawRConn := makeTdRaw .tagHttpGetIncomplete stationPubkey remoteConnId
  let t := [Event.makeTdRaw .tagHttpGetIncomplete stationPubkey remoteConnId]
  let rawRConn := { rawRConn with customDialer := customDialer }
  let rawRConn := { rawRConn with sessionId := dualConn.sessionId }
  let rawRConn := { rawRConn with strIdSuffix := "R" }
  match makeTdFlow c .flowReadOnly rawRConn with
  | .error err => ⟨none, some err, t ++ [.makeTdFlow .flowReadOnly rawRConn (some err)]⟩
  | .ok readerConn =>
  let t := t ++ [.makeTdFlow .flowReadOnly rawRConn none]
  match c.Dial readerConn with
  | (_, some err) => ⟨none, some err, t ++ [.Dial .readerConn (some err)]⟩
  | (readerConn, none) =>
  let t := t ++ [.Dial .readerConn none]
  let dualConn := { dualConn with Conn := some .readerConn }
  match c.yieldUpload readerConn with
  | (_, some err) =>
    ⟨none, some err,
      t ++ [.yieldUpload .readerConn (some err), .closeWithErrorOnce .readerConn err]⟩
  | (readerConn, none) =>
  let t := t ++ [.yieldUpload .readerConn none]
  let rawRConn := readerConn.tdRaw
  let rawWConn := makeTdRaw .tagHttpPostIncomplete stationPubkey remoteConnId
  let t := t ++ [.makeTdRaw .tagHttpPostIncomplete stationPubkey remoteConnId]
  let rawWConn := { rawWConn with customDialer := customDialer }
  let rawWConn := { rawWConn with sessionId := dualConn.sessionId }
  let rawWConn := { rawWConn with strIdSuffix := "W" }
  let rawWConn := { rawWConn with decoySpec := rawRConn.decoySpec }
  let rawWConn := { rawWConn with pinDecoySpec := true }
  match makeTdFlow c .flowUpload rawWConn with
  | .error err =>
    ⟨none, some err,
      t ++ [.makeTdFlow .flowUpload rawWConn (some err), .closeWithErrorOnce .readerConn err]⟩
  | .ok writerConn =>
  let t := t ++ [.makeTdFlow .flowUpload rawWConn none]
  match c.Dial writerConn with
  | (_, some err) =>
    ⟨none, some err,
      t ++ [.Dial .writerConn (some err), .closeWithErrorOnce .readerConn err]⟩
  | (writerConn, none) =>
  let t := t ++ [.Dial .writerConn none]
  match c.acquireUpload writerConn with
  | (_, some err) =>
    ⟨none, some err,
      t ++ [.acquireUpload .writerConn (some err), .closeWithErrorOnce .readerConn err,
            .closeWithErrorOnce .writerConn err]⟩
  | (writerConn, none) =>
  let t := t ++ [.acquireUpload .writerConn none]
  ⟨some { dualConn with readerConn := some readerConn, writerConn := some writerConn },
    none, t ++ [.goWatcher]⟩

/-! ## The close-propagation goroutine -/

/-- How a run of the goroutine of lines 114-123 ends once `select` has taken
the case `observed`: the case is not ready (`blocked`), a nil pointer is
dereferenced (`panicked`), or the goroutine ends (`done`) having performed the
given calls and left the `DualConn` in the given state. -/
inductive WatcherRun where
  | blocked
  | panicked
  | done (conn : DualConn) (calls : List Event)
deriving DecidableEq, Repr

/-- The goroutine of lines 114-123. `observed` is the case `select` takes; a
case is ready when the `closed` channel of its flow has been closed. -/
def watcher (dualConn : DualConn) (observed : FlowRef) : WatcherRun :=
  match dualConn.readerConn, dualConn.writerConn with
  | some readerConn, some writerConn =>
    match observed with
    | .readerConn =>
      if readerConn.closed then
        match readerConn.closeErr with
        | none => .panicked
        | some closeErr =>
          let err := errorsNew ("in paired readerConn: " ++ closeErr.Error)
          .done { dualConn with writerConn := some (writerConn.closeWithErrorOnce err) }
            [.closeWithErrorOnce .writerConn err]
      else .blocked
    | .writerConn =>
      if writerConn.closed then
        match writerConn.closeErr with
        | none => .panicked
        | some closeErr =>
          let err := errorsNew ("in paired writerConn: " ++ closeErr.Error)
          .done { dualConn with readerConn := some (readerConn.closeWithErrorOnce err) }
            [.closeWithErrorOnce .readerConn err]
      else .blocked
  | _, _ => .panicked

/-! ## The socket operations of a flow -/

/-- Modelled from the spec: `TapdanceFlowConn.Read` is defined outside
`conn_dual.go`; its effect and results are those of the collaborator. -/
def TapdanceFlowConn.Read (c : Collab) (f : TapdanceFlowConn) (b : List Nat) :
    TapdanceFlowConn × (List Nat × Nat × Option GoError) := c.flowRead f b

/-- Modelled from the spec: `TapdanceFlowConn.Write` is defined outside
`conn_dual.go`; its effect and results are those of the collaborator. -/
def TapdanceFlowConn.Write (c : Collab) (f : TapdanceFlowConn) (b : List Nat) :
    TapdanceFlowConn × (Nat × Option GoError) := c.flowWrite f b

/-- Modelled from the spec: `TapdanceFlowConn.Close` is defined outside
`conn_dual.go`; the first close wins and its error is reported to subsequent
callers: closing goes through the close-once latch, and the call returns the
terminal error the latch holds. -/
def TapdanceFlowConn.Close (c : Collab) (f : TapdanceFlowConn) :
    TapdanceFlowConn × Option GoError :=
  let f := f.closeWithErrorOnce c.appCloseCause
  (f, f.closeErr)

/-! ## The methods of `DualConn` -/

/-- What a method of `DualConn` leaves behind: the state of the `DualConn`, the
value returned, and the socket operations performed on the two flows. -/
structure CallResult (α : Type) where
  conn : DualConn
  ret : α
  calls : List (FlowRef × FlowCall)
deriving DecidableEq, Repr

/-- The flow a flow pointer of the `DualConn` points to. -/
def DualConn.flow (tdConn : DualConn) : FlowRef → Option TapdanceFlowConn
  | .readerConn => tdConn.readerConn
  | .writerConn => tdConn.writerConn

/-- Stores the new state of the flow a flow pointer points to. -/
def DualConn.setFlow (tdConn : DualConn) (who : FlowRef) (f : TapdanceFlowConn) : DualConn :=
  match who with
  | .readerConn => { tdConn with readerConn := some f }
  | .writerConn => { tdConn with writerConn := some f }

/-- A method promoted from the embedded `net.Conn` (line 31): it is performed
by the flow the interface value `Conn` points to; `none` is the panic of a call
through a nil interface or a nil pointer. -/
def DualConn.promoted {α : Type} (tdConn : DualConn) (call : FlowCall)
    (op : TapdanceFlowConn → TapdanceFlowConn × α) : Option (CallResult α) :=
  match tdConn.Conn with
  | none => none
  | some who =>
    match tdConn.flow who with
    | none => none
    | some f => some ⟨tdConn.setFlow who (op f).1, (op f).2, [(who, call)]⟩

/-- The method `Read`, promoted from the embedded `net.Conn`. -/
def DualConn.Read (c : Collab) (tdConn : DualConn) (b : List Nat) :
    Option (CallResult (List Nat × Nat × Option GoError)) :=
  tdConn.promoted (.Read b) (fun f => f.Read c b)

/-- The method `Close`, promoted from the embedded `net.Conn`. -/
def DualConn.Close (c : Collab) (tdConn : DualConn) : Option (CallResult (Option GoError)) :=
  tdConn.promoted .Close (fun f => f.Close c)

/-- The method `LocalAddr`, promoted from the embedded `net.Conn`. -/
def DualConn.LocalAddr (c : Collab) (tdConn : DualConn) : Option (CallResult String) :=
  tdConn.promoted .LocalAddr (fun f => (f, c.localAddr f))

/-- The method `RemoteAddr`, promoted from the embedded `net.Conn`. -/
def DualConn.RemoteAddr (c : Collab) (tdConn : DualConn) : Option (CallResult String) :=
  tdConn.promoted .RemoteAddr (fun f => (f, c.remoteAddr f))

/-- The method `SetDeadline`, promoted from the embedded `net.Conn`. -/
def DualConn.SetDeadline (c : Collab) (tdConn : DualConn) (t : Nat) :
    Option (CallResult (Option GoError)) :=
  tdConn.promoted (.SetDeadline t) (fun f => c.flowSetDeadline f t)

/-- The method `SetReadDeadline`, promoted from the embedded `net.Conn`. -/
def DualConn.SetReadDeadline (c : Collab) (tdConn : DualConn) (t : Nat) :
    Option (CallResult (Option GoError)) :=
  tdConn.promoted (.SetReadDeadline t) (fun f => c.flowSetReadDeadline f t)

/-- The method `SetWriteDeadline`, promoted from the embedded `net.Conn`. -/
def DualConn.SetWriteDeadline (c : Collab) (tdConn : DualConn) (t : Nat) :
    Option (CallResult (Option GoError)) :=
  tdConn.promoted (.SetWriteDeadline t) (fun f => c.flowSetWriteDeadline f t)

/-- The method `DualConn.Write` (lines 130-132). -/
def DualConn.Write (c : Collab) (tdConn : DualConn) (b : List Nat) :
    Option (CallResult (Nat × Option GoError)) :=
  match tdConn.writerConn with
  | none => none
  | some writerConn =>
    some ⟨{ tdConn with writerConn := some (writerConn.Write c b).1 },
      (writerConn.Write c b).2, [(.writerConn, .Write b)]⟩

/-- The method `DualConn.NetworkConn` (lines 139-141). -/
def DualConn.NetworkConn (c : Collab) (tdConn : DualConn) : Option (CallResult Nat) :=
  match tdConn.readerConn with
  | none => none
  | some readerConn => some ⟨tdConn, c.networkConn readerConn, [(.readerConn, .NetworkConn)]⟩

/-! ## `idStr` -/

/-- The first ten entries of the digit table of package `strconv`. -/
def digits : List Char := ['0', '1', '2', '3', '4', '5', '6', '7', '8', '9']

/-- The digit loop of `formatBits` in package `strconv`, at base 10: while
`u >= 10` the digit `u % 10` is written in front of the digits already produced
and `u` is divided by 10; the last digit written is `u` itself (the library
writes the same digits two at a time). The first argument bounds the number of
iterations; the loop runs fewer than `u + 1` times. -/
def formatBits : Nat → Nat → List Char → List Char
  | 0, u, a => digits.getD (u % 10) '0' :: a
  | fuel + 1, u, a =>
    if u ≥ 10 then formatBits fuel (u / 10) (digits.getD (u % 10) '0' :: a)
    else digits.getD u '0' :: a

/-- The function `strconv.FormatUint(i, 10)` of the Go standard library, for a
`uint64` argument. -/
def FormatUint (i : Nat) : String := String.mk (formatBits (i % 2 ^ 64) (i % 2 ^ 64) [])

/-- The method `DualConn.idStr` (lines 134-136). -/
def DualConn.idStr (tdConn : DualConn) : String :=
  "[Session " ++ FormatUint tdConn.sessionId ++ "]"

/-- The number a list of decimal digits denotes, most significant first. -/
def decimalValue (cs : List Char) : Nat :=
  cs.foldl (fun v ch => 10 * v + (ch.toNat - 48)) 0

/-- The regular expression `^\[Session \d+\]$`: the text "[Session ", one or
more decimal digits, and "]". -/
def matchesIdStr (s : String) : Bool :=
  let cs := s.toList
  cs.take 9 == "[Session ".toList &&
    ((cs.drop 9).getLast? == some ']' &&
      (!(cs.drop 9).dropLast.isEmpty && (cs.drop 9).dropLast.all Char.isDigit))

/-! ## Reading a list of events -/

/-- The kind of an event: which collaborator was called, for which flow. -/
inductive EventKind where
  | makeRaw (tag : tdTagType)
  | wrap (flow : flowType)
  | dial (who : FlowRef)
  | yield (who : FlowRef)
  | acquire (who : FlowRef)
  | close
  | watcher
deriving DecidableEq, Repr

/-- The kind of an event. -/
def Event.kind : Event → EventKind
  | .makeTdRaw tag _ _ => .makeRaw tag
  | .makeTdFlow flow _ _ => .wrap flow
  | .Dial who _ => .dial who
  | .yieldUpload who _ => .yield who
  | .acquireUpload who _ => .acquire who
  | .closeWithErrorOnce _ _ => .close
  | .goWatcher => .watcher

/-- The canonical sequence of a handshake: make reader raw, wrap reader, dial
reader, yield upload, make writer raw, wrap writer, dial writer, acquire
upload, start watcher. -/
def canonical : List EventKind :=
  [.makeRaw .tagHttpGetIncomplete, .wrap .flowReadOnly, .dial .readerConn, .yield .readerConn,
   .makeRaw .tagHttpPostIncomplete, .wrap .flowUpload, .dial .writerConn, .acquire .writerConn,
   .watcher]

/-- The six fallible collaborator steps of the handshake. -/
inductive Step where
  | readerWrap
  | readerDial
  | readerYield
  | writerWrap
  | writerDial
  | writerAcquire
deriving DecidableEq, Repr

/-- The six steps in the order of the handshake. -/
def allSteps : List Step :=
  [.readerWrap, .readerDial, .readerYield, .writerWrap, .writerDial, .writerAcquire]

/-- The step an event performs, if it performs one. -/
def Event.step : Event → Option Step
  | .makeTdFlow .flowReadOnly _ _ => some .readerWrap
  | .makeTdFlow .flowUpload _ _ => some .writerWrap
  | .Dial .readerConn _ => some .readerDial
  | .Dial .writerConn _ => some .writerDial
  | .yieldUpload .readerConn _ => some .readerYield
  | .acquireUpload .writerConn _ => some .writerAcquire
  | _ => none

/-- The error a fallible call returned; `none` for success and for the calls
that return no error. -/
def Event.failure : Event → Option GoError
  | .makeTdFlow _ _ err => err
  | .Dial _ err => err
  | .yieldUpload _ err => err
  | .acquireUpload _ err => err
  | _ => none

/-- The first step that failed, with the error it returned. -/
def firstFailure : List Event → Option (Step × GoError)
  | [] => none
  | ev :: rest =>
    match ev.step, ev.failure with
    | some step, some err => some (step, err)
    | _, _ => firstFailure rest

/-- The steps that were performed and succeeded, in order. -/
def succeededSteps (t : List Event) : List Step :=
  t.filterMap (fun ev => if ev.failure = none then ev.step else none)

/-- The calls of `closeWithErrorOnce`: flow and cause, in order. -/
def closeCalls (t : List Event) : List (FlowRef × GoError) :=
  t.filterMap (fun ev =>
    match ev with
    | .closeWithErrorOnce who err => some (who, err)
    | _ => none)

/-- The flows whose `Dial` returned nil, in order. -/
def openedFlows (t : List Event) : List FlowRef :=
  t.filterMap (fun ev =>
    match ev with
    | .Dial who none => some who
    | _ => none)

/-- The close calls the handshake is to make when `step` is the first step to
fail, with error `e`: none for the wrap and the dial of the reader, the reader
for its yield and for the wrap and the dial of the writer, the reader and then
the writer for the acquire. -/
def closesAfter (step : Step) (e : GoError) : List (FlowRef × GoError) :=
  match step with
  | .readerWrap => []
  | .readerDial => []
  | .readerYield => [(.readerConn, e)]
  | .writerWrap => [(.readerConn, e)]
  | .writerDial => [(.readerConn, e)]
  | .writerAcquire => [(.readerConn, e), (.writerConn, e)]

/-- The arguments of the calls of `makeTdFlow`: role and raw flow, in order. -/
def wrapCalls (t : List Event) : List (flowType × tdRawConn) :=
  t.filterMap (fun ev =>
    match ev with
    | .makeTdFlow flow tdRaw _ => some (flow, tdRaw)
    | _ => none)

/-- The arguments of the calls of `makeTdRaw`, in order. -/
def rawCalls (t : List Event) : List (tdTagType × List Nat × List Nat) :=
  t.filterMap (fun ev =>
    match ev with
    | .makeTdRaw tag key id => some (tag, key, id)
    | _ => none)

/-! ## The states a handshake goes through -/

/-- The correlation id of lines 43-44. -/
def remoteConnId (c : Collab) : List Nat := randRead c.randBytes (List.replicate 16 0)

/-- The raw reader flow as lines 46-51 leave it. -/
def readerRaw (c : Collab) (customDialer : Dialer) : tdRawConn :=
  { makeTdRaw .tagHttpGetIncomplete c.pubkey (remoteConnId c) with
    customDialer := customDialer, sessionId := c.GetAndInc, strIdSuffix := "R" }

/-- The reader flow and the error that its `Dial` returns (line 58). -/
def readerDialed (c : Collab) (customDialer : Dialer) : TapdanceFlowConn × Option GoError :=
  c.Dial (freshFlow .flowReadOnly (readerRaw c customDialer))

/-- The reader flow and the error that its `yieldUpload` returns (line 68). -/
def readerYielded (c : Collab) (customDialer : Dialer) : TapdanceFlowConn × Option GoError :=
  c.yieldUpload (readerDialed c customDialer).1

/-- The raw writer flow as lines 74-81 leave it. -/
def writerRaw (c : Collab) (customDialer : Dialer) : tdRawConn :=
  { makeTdRaw .tagHttpPostIncomplete c.pubkey (remoteConnId c) with
    customDialer := customDialer, sessionId := c.GetAndInc, strIdSuffix := "W",
    decoySpec := (readerYielded c customDialer).1.tdRaw.decoySpec, pinDecoySpec := true }

/-- The writer flow and the error that its `Dial` returns (line 88). -/
def writerDialed (c : Collab) (customDialer : Dialer) : TapdanceFlowConn × Option GoError :=
  c.Dial (freshFlow .flowUpload (writerRaw c customDialer))

/-- The writer flow and the error that its `acquireUpload` returns (line 94). -/
def writerAcquired (c : Collab) (customDialer : Dialer) : TapdanceFlowConn × Option GoError :=
  c.acquireUpload (writerDialed c customDialer).1

/-- The `DualConn` that a handshake without failure returns. -/
def dialed (c : Collab) (customDialer : Dialer) : DualConn :=
  { Conn := some .readerConn
    writerConn := some (writerAcquired c customDialer).1
    readerConn := some (readerYielded c customDialer).1
    sessionId := c.GetAndInc }

/-! ## Programmed collaborators -/

/-- The error of a step of a collaborator programmed to fail at `failing`. -/
def failAt (failing : Option (Step × GoError)) (step : Step) : Option GoError :=
  match failing with
  | some (s, e) => if s = step then some e else none
  | none => none

/-- A collaborator programmed like a test double: session id 42, correlation
bytes `0x00 .. 0x0F`, every step succeeding except the one given in `failing`;
the dial of the reader records `decoy` in its raw flow; a write accepts all
bytes, a read delivers none, and setting a deadline stores it in the flow. -/
def mock (failing : Option (Step × GoError)) (decoy : DecoySpec) : Collab :=
  { sessionsTotal := 42
    pubkey := List.replicate 32 7
    randBytes := List.range 16
    wrapErr := fun flow _ =>
      match flow with
      | .flowReadOnly => failAt failing .readerWrap
      | .flowUpload => failAt failing .writerWrap
    Dial := fun f =>
      match f.flowType with
      | .flowReadOnly =>
        ({ f with tdRaw := { f.tdRaw with decoySpec := decoy } }, failAt failing .readerDial)
      | .flowUpload => (f, failAt failing .writerDial)
    yieldUpload := fun f => (f, failAt failing .readerYield)
    acquireUpload := fun f => (f, failAt failing .writerAcquire)
    flowRead := fun f b => (f, (b, 0, none))
    flowWrite := fun f b => (f, (b.length, none))
    flowSetDeadline := fun f t => ({ f with readDeadline := some t, writeDeadline := some t }, none)
    flowSetReadDeadline := fun f t => ({ f with readDeadline := some t }, none)
    flowSetWriteDeadline := fun f t => ({ f with writeDeadline := some t }, none)
    localAddr := fun _ => "local"
    remoteAddr := fun _ => "remote"
    networkConn := fun f => if f.flowType = .flowReadOnly then 1 else 2
    appCloseCause := ⟨"closed by application layer"⟩ }

/-- The `DualConn` of the happy path: every step of the programmed collaborator
succeeds and the dial of the reader records the decoy `decoy#7`. -/
def happyConn : DualConn := dialed (mock none (some "decoy#7")) none

/-- The happy-path `DualConn` once its writer flow has closed itself with the
terminal error "peer reset". -/
def writerResetConn : DualConn :=
  { happyConn with
    writerConn := happyConn.writerConn.map (fun w => w.closeWithErrorOnce ⟨"peer reset"⟩) }

/-! ## The seven paths of `dialSplitFlow` -/

/-- The events of a handshake up to the wrapping of the reader. -/
def evReaderWrap (c : Collab) (d : Dialer) (err : Option GoError) : List Event :=
  [.makeTdRaw .tagHttpGetIncomplete c.pubkey (remoteConnId c),
   .makeTdFlow .flowReadOnly (readerRaw c d) err]

/-- The events of a handshake whose reader yielded, up to the wrapping of the
writer. -/
def evWriterWrap (c : Collab) (d : Dialer) (err : Option GoError) : List Event :=
  evReaderWrap c d none ++
  [.Dial .readerConn none, .yieldUpload .readerConn none,
   .makeTdRaw .tagHttpPostIncomplete c.pubkey (remoteConnId c),
   .makeTdFlow .flowUpload (writerRaw c d) err]

theorem dialSplitFlow_paths (c : Collab) (d : Dialer) :
    (∃ e, c.wrapErr .flowReadOnly (readerRaw c d) = some e ∧
      dialSplitFlow c d = ⟨none, some e, evReaderWrap c d (some e)⟩) ∨
    (∃ e, (readerDialed c d).2 = some e ∧
      dialSplitFlow c d = ⟨none, some e, evReaderWrap c d none ++ [.Dial .readerConn (some e)]⟩) ∨
    (∃ e, (readerYielded c d).2 = some e ∧
      dialSplitFlow c d = ⟨none, some e, evReaderWrap c d none ++
        [.Dial .readerConn none, .yieldUpload .readerConn (some e),
         .closeWithErrorOnce .readerConn e]⟩) ∨
    (∃ e, c.wrapErr .flowUpload (writerRaw c d) = some e ∧
      dialSplitFlow c d = ⟨none, some e, evWriterWrap c d (some e) ++
        [.closeWithErrorOnce .readerConn e]⟩) ∨
    (∃ e, (writerDialed c d).2 = some e ∧
      dialSplitFlow c d = ⟨none, some e, evWriterWrap c d none ++
        [.Dial .writerConn (some e), .closeWithErrorOnce .readerConn e]⟩) ∨
    (∃ e, (writerAcquired c d).2 = some e ∧
      dialSplitFlow c d = ⟨none, some e, evWriterWrap c d none ++
        [.Dial .writerConn none, .acquireUpload .writerConn (some e),
         .closeWithErrorOnce .readerConn e, .closeWithErrorOnce .writerConn e]⟩) ∨
    dialSplitFlow c d = ⟨some (dialed c d), none, evWriterWrap c d none ++
        [.Dial .writerConn none, .acquireUpload .writerConn none, .goWatcher]⟩ := by
  rcases h1 : c.wrapErr .flowReadOnly (readerRaw c d) with _ | e
  · rcases h2 : readerDialed c d with ⟨r1, _ | e⟩
    · rcases h3 : readerYielded c d with ⟨r2, _ | e⟩
      · rcases h4 : c.wrapErr .flowUpload (writerRaw c d) with _ | e
        · rcases h5 : writerDialed c d with ⟨w1, _ | e⟩
          · rcases h6 : writerAcquired c d with ⟨w2, _ | e⟩
            · iterate 6 right
              simp only [dialSplitFlow, makeTdFlow, evReaderWrap, evWriterWrap, dialed,
                readerRaw, writerRaw, readerDialed, readerYielded, writerDialed, writerAcquired,
                remoteConnId] at *
              simp_all
            · iterate 5 right
              left
              refine ⟨e, rfl, ?_⟩
              simp only [dialSplitFlow, makeTdFlow, evReaderWrap, evWriterWrap, dialed,
                readerRaw, writerRaw, readerDialed, readerYielded, writerDialed, writerAcquired,
                remoteConnId] at *
              simp_all
          · iterate 4 right
            left
            refine ⟨e, rfl, ?_⟩
            simp only [dialSplitFlow, makeTdFlow, evReaderWrap, evWriterWrap, dialed,
              readerRaw, writerRaw, readerDialed, readerYielded, writerDialed, writerAcquired,
              remoteConnId] at *
            simp_all
        · iterate 3 right
          left
          refine ⟨e, rfl, ?_⟩
          simp only [dialSplitFlow, makeTdFlow, evReaderWrap, evWriterWrap, dialed,
            readerRaw, writerRaw, readerDialed, readerYielded, writerDialed, writerAcquired,
            remoteConnId] at *
          simp_all
      · iterate 2 right
        left
        refine ⟨e, rfl, ?_⟩
        simp only [dialSplitFlow, makeTdFlow, evReaderWrap, evWriterWrap, dialed,
          readerRaw, writerRaw, readerDialed, readerYielded, writerDialed, writerAcquired,
          remoteConnId] at *
        simp_all
    · right
      left
      refine ⟨e, rfl, ?_⟩
      simp only [dialSplitFlow, makeTdFlow, evReaderWrap, evWriterWrap, dialed,
        readerRaw, writerRaw, readerDialed, readerYielded, writerDialed, writerAcquired,
        remoteConnId] at *
      simp_all
  · left
    refine ⟨e, rfl, ?_⟩
    simp [dialSplitFlow, makeTdFlow, evReaderWrap, readerRaw, remoteConnId] at h1 ⊢
    simp [h1]

/-! ## The handshake -/

/-- C1: whatever the six collaborator steps return, the events of
`dialSplitFlow` are the first `n` entries of the canonical sequence, none of
them failing before the last, followed only by calls of `closeWithErrorOnce`;
the prefix ends at a failing step unless it is the whole canonical sequence,
in which case nothing failed. The writer raw flow is made only after
`yieldUpload` of the reader has returned nil, and never when the first failure
is one of the reader steps; the watcher is started once when the six steps all
succeed and not at all otherwise, and the six steps all succeed exactly when
no step fails. -/
theorem dialSplitFlow_event_order (c : Collab) (d : Dialer) :
    (∃ n, 1 ≤ n ∧ n ≤ 9 ∧
      ((dialSplitFlow c d).trace.take n).map Event.kind = canonical.take n ∧
      (∀ ev ∈ (dialSplitFlow c d).trace.drop n, ev.kind = .close) ∧
      (∀ ev ∈ ((dialSplitFlow c d).trace.take n).dropLast, ev.failure = none) ∧
      (n < 9 → ∃ ev, ((dialSplitFlow c d).trace.take n).getLast? = some ev ∧
        ev.failure ≠ none) ∧
      (n = 9 → ∀ ev ∈ (dialSplitFlow c d).trace, ev.failure = none)) ∧
    (∀ i, ((dialSplitFlow c d).trace.get? i).map Event.kind
        = some (.makeRaw .tagHttpPostIncomplete) →
      ∃ j, j < i ∧ (dialSplitFlow c d).trace.get? j = some (.yieldUpload .readerConn none)) ∧
    (∀ s e, firstFailure (dialSplitFlow c d).trace = some (s, e) →
      s = .readerWrap ∨ s = .readerDial ∨ s = .readerYield →
      EventKind.makeRaw .tagHttpPostIncomplete ∉ (dialSplitFlow c d).trace.map Event.kind) ∧
    ((dialSplitFlow c d).trace.count .goWatcher
      = if succeededSteps (dialSplitFlow c d).trace = allSteps then 1 else 0) ∧
    (succeededSteps (dialSplitFlow c d).trace = allSteps ↔
      firstFailure (dialSplitFlow c d).trace = none) := by
  rcases dialSplitFlow_paths c d with ⟨e, -, h⟩ | ⟨e, -, h⟩ | ⟨e, -, h⟩ | ⟨e, -, h⟩ |
    ⟨e, -, h⟩ | ⟨e, -, h⟩ | h <;> rw [h] <;> clear h
  · refine ⟨⟨2, ?_⟩, ?_, ?_, ?_, ?_⟩
    · simp [evReaderWrap, evWriterWrap, canonical, Event.kind, Event.failure]
    · intro i
      rcases i with _ | _ | _ | _ | _ | i <;> simp [evReaderWrap, Event.kind]
    · simp [evReaderWrap, evWriterWrap, firstFailure, Event.step, Event.failure, Event.kind]
    · simp [evReaderWrap, evWriterWrap, succeededSteps, allSteps, Event.step, Event.failure]
    · simp [evReaderWrap, evWriterWrap, succeededSteps, allSteps, Event.step, Event.failure,
        firstFailure]
  · refine ⟨⟨3, ?_⟩, ?_, ?_, ?_, ?_⟩
    · simp [evReaderWrap, evWriterWrap, canonical, Event.kind, Event.failure]
    · intro i
      rcases i with _ | _ | _ | _ | _ | i <;> simp [evReaderWrap, Event.kind]
    · simp [evReaderWrap, evWriterWrap, firstFailure, Event.step, Event.failure, Event.kind]
    · simp [evReaderWrap, evWriterWrap, succeededSteps, allSteps, Event.step, Event.failure]
    · simp [evReaderWrap, evWriterWrap, succeededSteps, allSteps, Event.step, Event.failure,
        firstFailure]
  · refine ⟨⟨4, ?_⟩, ?_, ?_, ?_, ?_⟩
    · simp [evReaderWrap, evWriterWrap, canonical, Event.kind, Event.failure]
    · intro i
      rcases i with _ | _ | _ | _ | _ | i <;> simp [evReaderWrap, Event.kind]
    · simp [evReaderWrap, evWriterWrap, firstFailure, Event.step, Event.failure, Event.kind]
    · simp [evReaderWrap, evWriterWrap, succeededSteps, allSteps, Event.step, Event.failure]
    · simp [evReaderWrap, evWriterWrap, succeededSteps, allSteps, Event.step, Event.failure,
        firstFailure]
  · refine ⟨⟨6, ?_⟩, ?_, ?_, ?_, ?_⟩
    · simp [evReaderWrap, evWriterWrap, canonical, Event.kind, Event.failure]
    · intro i
      rcases i with _ | _ | _ | _ | _ | _ | _ | _ | _ | _ | _ | _ | i <;>
        first
        | (simp [evReaderWrap, evWriterWrap, Event.kind]; done)
        | exact fun _ => ⟨3, by simp [evReaderWrap, evWriterWrap]⟩
    · simp [evReaderWrap, evWriterWrap, firstFailure, Event.step, Event.failure, Event.kind]
    · simp [evReaderWrap, evWriterWrap, succeededSteps, allSteps, Event.step, Event.failure]
    · simp [evReaderWrap, evWriterWrap, succeededSteps, allSteps, Event.step, Event.failure,
        firstFailure]
  · refine ⟨⟨7, ?_⟩, ?_, ?_, ?_, ?_⟩
    · simp [evReaderWrap, evWriterWrap, canonical, Event.kind, Event.failure]
    · intro i
      rcases i with _ | _ | _ | _ | _ | _ | _ | _ | _ | _ | _ | _ | i <;>
        first
        | (simp [evReaderWrap, evWriterWrap, Event.kind]; done)
        | exact fun _ => ⟨3, by simp [evReaderWrap, evWriterWrap]⟩
    · simp [evReaderWrap, evWriterWrap, firstFailure, Event.step, Event.failure, Event.kind]
    · simp [evReaderWrap, evWriterWrap, succeededSteps, allSteps, Event.step, Event.failure]
    · simp [evReaderWrap, evWriterWrap, succeededSteps, allSteps, Event.step, Event.failure,
        firstFailure]
  · refine ⟨⟨8, ?_⟩, ?_, ?_, ?_, ?_⟩
    · simp [evReaderWrap, evWriterWrap, canonical, Event.kind, Event.failure]
    · intro i
      rcases i with _ | _ | _ | _ | _ | _ | _ | _ | _ | _ | _ | _ | i <;>
        first
        | (simp [evReaderWrap, evWriterWrap, Event.kind]; done)
        | exact fun _ => ⟨3, by simp [evReaderWrap, evWriterWrap]⟩
    · simp [evReaderWrap, evWriterWrap, firstFailure, Event.step, Event.failure, Event.kind]
    · simp [evReaderWrap, evWriterWrap, succeededSteps, allSteps, Event.step, Event.failure]
    · simp [evReaderWrap, evWriterWrap, succeededSteps, allSteps, Event.step, Event.failure,
        firstFailure]
  · refine ⟨⟨9, ?_⟩, ?_, ?_, ?_, ?_⟩
    · simp [evReaderWrap, evWriterWrap, canonical, Event.kind, Event.failure]
    · intro i
      rcases i with _ | _ | _ | _ | _ | _ | _ | _ | _ | _ | _ | _ | i <;>
        first
        | (simp [evReaderWrap, evWriterWrap, Event.kind]; done)
        | exact fun _ => ⟨3, by simp [evReaderWrap, evWriterWrap]⟩
    · simp [evReaderWrap, evWriterWrap, firstFailure, Event.step, Event.failure, Event.kind]
    · simp [evReaderWrap, evWriterWrap, succeededSteps, allSteps, Event.step, Event.failure]
    · simp [evReaderWrap, evWriterWrap, succeededSteps, allSteps, Event.step, Event.failure,
        firstFailure]

theorem dialSplitFlow_event_order_witness :
    firstFailure (dialSplitFlow (mock (some (.readerYield, ⟨"yield rejected"⟩)) none) none).trace
      = some (.readerYield, ⟨"yield rejected"⟩) ∧
    EventKind.makeRaw .tagHttpPostIncomplete
      ∉ (dialSplitFlow (mock (some (.readerYield, ⟨"yield rejected"⟩)) none) none).trace.map
          Event.kind :=
  ⟨by decide,
   (dialSplitFlow_event_order (mock (some (.readerYield, ⟨"yield rejected"⟩)) none) none).2.2.1
      .readerYield ⟨"yield rejected"⟩ (by decide) (Or.inr (Or.inr rfl))⟩

theorem randRead_length (src buf : List Nat) : (randRead src buf).length = buf.length := by
  simp only [randRead, List.length_append, List.length_map, List.length_take, List.length_drop]
  omega

/-- C2: when step `s` is the first step to fail, with error `e`, the calls of
`closeWithErrorOnce` are exactly the flows whose `Dial` had returned nil, in
that order, each once and each with `e` as the cause: none for the wrap and
the dial of the reader, the reader for the yield and for the wrap and the dial
of the writer, the reader and then the writer for the acquire. -/
theorem dialSplitFlow_closes_opened (c : Collab) (d : Dialer) (s : Step) (e : GoError)
    (h : firstFailure (dialSplitFlow c d).trace = some (s, e)) :
    closeCalls (dialSplitFlow c d).trace
      = (openedFlows (dialSplitFlow c d).trace).map (fun who => (who, e)) ∧
    closeCalls (dialSplitFlow c d).trace = closesAfter s e := by
  rcases dialSplitFlow_paths c d with ⟨e1, -, h1⟩ | ⟨e1, -, h1⟩ | ⟨e1, -, h1⟩ | ⟨e1, -, h1⟩ |
    ⟨e1, -, h1⟩ | ⟨e1, -, h1⟩ | h1 <;> rw [h1] at h ⊢ <;> clear h1 <;>
    simp [evReaderWrap, evWriterWrap, firstFailure, Event.step, Event.failure] at h <;>
    obtain ⟨rfl, rfl⟩ := h <;>
    simp [evReaderWrap, evWriterWrap, closeCalls, openedFlows, closesAfter]

theorem dialSplitFlow_closes_opened_witness :
    firstFailure (dialSplitFlow (mock (some (.writerAcquire, ⟨"acquire timeout"⟩)) none) none).trace
      = some (.writerAcquire, ⟨"acquire timeout"⟩) ∧
    closeCalls (dialSplitFlow (mock (some (.writerAcquire, ⟨"acquire timeout"⟩)) none) none).trace
      = [(.readerConn, ⟨"acquire timeout"⟩), (.writerConn, ⟨"acquire timeout"⟩)] :=
  ⟨by decide,
   (dialSplitFlow_closes_opened (mock (some (.writerAcquire, ⟨"acquire timeout"⟩)) none) none
      .writerAcquire ⟨"acquire timeout"⟩ (by decide)).2⟩

/-- C3: when a step is the first to fail, with error `e`, `dialSplitFlow`
returns a nil connection and `e` itself; it returns a `DualConn` with a nil
error, both flow pointers set, exactly when the six steps all succeed. Each of
the six steps can be the failing one: a collaborator programmed to fail there
with `e` makes `dialSplitFlow` return nil and `e`; a reader dial failing with
"econnrefused" makes it return "econnrefused". -/
theorem dialSplitFlow_result (c : Collab) (d : Dialer) :
    (∀ s e, firstFailure (dialSplitFlow c d).trace = some (s, e) →
      (dialSplitFlow c d).conn = none ∧ (dialSplitFlow c d).err = some e) ∧
    ((∃ dc r w, (dialSplitFlow c d).conn = some dc ∧ (dialSplitFlow c d).err = none ∧
        dc.readerConn = some r ∧ dc.writerConn = some w)
      ↔ succeededSteps (dialSplitFlow c d).trace = allSteps) ∧
    ((dialSplitFlow c d).conn ≠ none ↔ succeededSteps (dialSplitFlow c d).trace = allSteps) ∧
    ((dialSplitFlow c d).err = none ↔ succeededSteps (dialSplitFlow c d).trace = allSteps) ∧
    (∀ s e decoy, firstFailure (dialSplitFlow (mock (some (s, e)) decoy) d).trace = some (s, e) ∧
      (dialSplitFlow (mock (some (s, e)) decoy) d).conn = none ∧
      (dialSplitFlow (mock (some (s, e)) decoy) d).err = some e) ∧
    (dialSplitFlow (mock (some (.readerDial, ⟨"econnrefused"⟩)) none) d).err
      = some ⟨"econnrefused"⟩ := by
  refine ⟨?_, ?_, ?_, ?_, ?_, rfl⟩
  · intro s e h
    rcases dialSplitFlow_paths c d with ⟨e1, -, h1⟩ | ⟨e1, -, h1⟩ | ⟨e1, -, h1⟩ | ⟨e1, -, h1⟩ |
      ⟨e1, -, h1⟩ | ⟨e1, -, h1⟩ | h1 <;> rw [h1] at h ⊢ <;> clear h1 <;>
      simp [evReaderWrap, evWriterWrap, firstFailure, Event.step, Event.failure] at h <;>
      simp [h]
  · rcases dialSplitFlow_paths c d with ⟨e1, -, h1⟩ | ⟨e1, -, h1⟩ | ⟨e1, -, h1⟩ | ⟨e1, -, h1⟩ |
      ⟨e1, -, h1⟩ | ⟨e1, -, h1⟩ | h1 <;> rw [h1] <;> clear h1 <;>
      simp [evReaderWrap, evWriterWrap, succeededSteps, allSteps, Event.step, Event.failure,
        dialed]
  · rcases dialSplitFlow_paths c d with ⟨e1, -, h1⟩ | ⟨e1, -, h1⟩ | ⟨e1, -, h1⟩ | ⟨e1, -, h1⟩ |
      ⟨e1, -, h1⟩ | ⟨e1, -, h1⟩ | h1 <;> rw [h1] <;> clear h1 <;>
      simp [evReaderWrap, evWriterWrap, succeededSteps, allSteps, Event.step, Event.failure]
  · rcases dialSplitFlow_paths c d with ⟨e1, -, h1⟩ | ⟨e1, -, h1⟩ | ⟨e1, -, h1⟩ | ⟨e1, -, h1⟩ |
      ⟨e1, -, h1⟩ | ⟨e1, -, h1⟩ | h1 <;> rw [h1] <;> clear h1 <;>
      simp [evReaderWrap, evWriterWrap, succeededSteps, allSteps, Event.step, Event.failure]
  · intro s e decoy
    cases s <;> exact ⟨rfl, rfl, rfl⟩

theorem dialSplitFlow_result_witness :
    firstFailure (dialSplitFlow (mock (some (.readerDial, ⟨"econnrefused"⟩)) none) none).trace
      = some (.readerDial, ⟨"econnrefused"⟩) ∧
    (dialSplitFlow (mock (some (.readerDial, ⟨"econnrefused"⟩)) none) none).conn = none ∧
    (dialSplitFlow (mock (some (.readerDial, ⟨"econnrefused"⟩)) none) none).err
      = some ⟨"econnrefused"⟩ :=
  ⟨by decide,
   (dialSplitFlow_result (mock (some (.readerDial, ⟨"econnrefused"⟩)) none) none).1
      .readerDial ⟨"econnrefused"⟩ (by decide)⟩

/-- C4: when the handshake reaches the wrapping of the writer, the dial and
the yield of the reader have returned nil, and the raw flow handed to
`makeTdFlow(flowUpload, _)` carries the `decoySpec` that the raw flow of the
reader holds once its `Dial` and `yieldUpload` have returned, with
`pinDecoySpec` true; that call is the only wrapping of a writer and comes
before every `Dial` of the writer. -/
theorem writer_wrap_sees_pinned_decoy (c : Collab) (d : Dialer)
    (h : EventKind.wrap .flowUpload ∈ (dialSplitFlow c d).trace.map Event.kind) :
    ∃ rawWConn err,
      (dialSplitFlow c d).trace.get? 5 = some (.makeTdFlow .flowUpload rawWConn err) ∧
      rawWConn.decoySpec
        = (c.yieldUpload (c.Dial (freshFlow .flowReadOnly (readerRaw c d))).1).1.tdRaw.decoySpec ∧
      rawWConn.pinDecoySpec = true ∧
      (dialSplitFlow c d).trace.get? 2 = some (.Dial .readerConn none) ∧
      (dialSplitFlow c d).trace.get? 3 = some (.yieldUpload .readerConn none) ∧
      (∀ i raw err1, (dialSplitFlow c d).trace.get? i = some (.makeTdFlow .flowUpload raw err1) →
        i = 5) ∧
      (∀ j err1, (dialSplitFlow c d).trace.get? j = some (.Dial .writerConn err1) → 5 < j) := by
  rcases dialSplitFlow_paths c d with ⟨e1, -, h1⟩ | ⟨e1, -, h1⟩ | ⟨e1, -, h1⟩ | ⟨e1, -, h1⟩ |
    ⟨e1, -, h1⟩ | ⟨e1, -, h1⟩ | h1 <;> rw [h1] at h ⊢ <;> clear h1
  · simp [evReaderWrap, Event.kind] at h
  · simp [evReaderWrap, Event.kind] at h
  · simp [evReaderWrap, Event.kind] at h
  case' inr.inr.inr.inl => refine ⟨writerRaw c d, some e1, ?_, rfl, rfl, ?_, ?_, ?_, ?_⟩
  case' inr.inr.inr.inr.inl => refine ⟨writerRaw c d, none, ?_, rfl, rfl, ?_, ?_, ?_, ?_⟩
  case' inr.inr.inr.inr.inr.inl => refine ⟨writerRaw c d, none, ?_, rfl, rfl, ?_, ?_, ?_, ?_⟩
  case' inr.inr.inr.inr.inr.inr => refine ⟨writerRaw c d, none, ?_, rfl, rfl, ?_, ?_, ?_, ?_⟩
  all_goals first
    | (simp [evReaderWrap, evWriterWrap]; done)
    | (intro i raw err1
       rcases i with _ | _ | _ | _ | _ | _ | _ | _ | _ | _ | _ | _ | i <;>
         simp [evReaderWrap, evWriterWrap]; done)
    | (intro j err1
       rcases j with _ | _ | _ | _ | _ | _ | _ | _ | _ | _ | _ | _ | j <;>
         simp [evReaderWrap, evWriterWrap])

theorem writer_wrap_sees_pinned_decoy_witness :
    EventKind.wrap .flowUpload
      ∈ (dialSplitFlow (mock none (some "decoy#7")) none).trace.map Event.kind ∧
    ∃ rawWConn err,
      (dialSplitFlow (mock none (some "decoy#7")) none).trace.get? 5
        = some (.makeTdFlow .flowUpload rawWConn err) ∧
      rawWConn.decoySpec = some "decoy#7" ∧ rawWConn.pinDecoySpec = true := by
  refine ⟨by decide, ?_⟩
  obtain ⟨raw, err, h1, h2, h3, -⟩ :=
    writer_wrap_sees_pinned_decoy (mock none (some "decoy#7")) none (by decide)
  exact ⟨raw, err, h1, h2, h3⟩

/-- C5: after a successful `dialSplitFlow` the two calls of `makeTdRaw` got the
same station key and the same correlation id, of 16 bytes, the reader with tag
`tagHttpGetIncomplete` and the writer with `tagHttpPostIncomplete`; the raw
flows handed to `makeTdFlow` carry that key, that id, the session id of the
`DualConn` and the custom dialer, the reader with label "R" and role
`flowReadOnly`, the writer with label "W" and role `flowUpload`. -/
theorem dialSplitFlow_shared_identity (c : Collab) (d : Dialer) (dc : DualConn)
    (h : (dialSplitFlow c d).conn = some dc) :
    ∃ key id rawRConn rawWConn,
      id.length = 16 ∧
      rawCalls (dialSplitFlow c d).trace
        = [(.tagHttpGetIncomplete, key, id), (.tagHttpPostIncomplete, key, id)] ∧
      wrapCalls (dialSplitFlow c d).trace
        = [(.flowReadOnly, rawRConn), (.flowUpload, rawWConn)] ∧
      rawRConn.tagType = .tagHttpGetIncomplete ∧ rawWConn.tagType = .tagHttpPostIncomplete ∧
      rawRConn.stationPubkey = key ∧ rawWConn.stationPubkey = key ∧
      rawRConn.remoteConnId = id ∧ rawWConn.remoteConnId = id ∧
      rawRConn.sessionId = dc.sessionId ∧ rawWConn.sessionId = dc.sessionId ∧
      rawRConn.strIdSuffix = "R" ∧ rawWConn.strIdSuffix = "W" ∧
      rawRConn.customDialer = d ∧ rawWConn.customDialer = d := by
  rcases dialSplitFlow_paths c d with ⟨e1, -, h1⟩ | ⟨e1, -, h1⟩ | ⟨e1, -, h1⟩ | ⟨e1, -, h1⟩ |
    ⟨e1, -, h1⟩ | ⟨e1, -, h1⟩ | h1 <;> rw [h1] at h ⊢ <;> clear h1 <;>
    simp only [Option.some.injEq, reduceCtorEq] at h
  subst h
  refine ⟨c.pubkey, remoteConnId c, readerRaw c d, writerRaw c d, ?_, ?_, ?_,
    rfl, rfl, rfl, rfl, rfl, rfl, rfl, rfl, rfl, rfl, rfl, rfl⟩
  · simp [remoteConnId, randRead_length]
  · simp [evReaderWrap, evWriterWrap, rawCalls]
  · simp [evReaderWrap, evWriterWrap, wrapCalls]

theorem dialSplitFlow_shared_identity_witness :
    (dialSplitFlow (mock none none) (some 3)).conn = some (dialed (mock none none) (some 3)) ∧
    ∃ key id rawRConn rawWConn,
      id.length = 16 ∧
      rawCalls (dialSplitFlow (mock none none) (some 3)).trace
        = [(.tagHttpGetIncomplete, key, id), (.tagHttpPostIncomplete, key, id)] ∧
      wrapCalls (dialSplitFlow (mock none none) (some 3)).trace
        = [(.flowReadOnly, rawRConn), (.flowUpload, rawWConn)] ∧
      rawRConn.strIdSuffix = "R" ∧ rawWConn.strIdSuffix = "W" := by
  refine ⟨by decide, ?_⟩
  obtain ⟨key, id, r, w, h1, h2, h3, -, -, -, -, -, -, -, -, h4, h5, -⟩ :=
    dialSplitFlow_shared_identity (mock none none) (some 3) _ (by decide :
      (dialSplitFlow (mock none none) (some 3)).conn = some (dialed (mock none none) (some 3)))
  exact ⟨key, id, r, w, h1, h2, h3, h4, h5⟩

theorem dialSplitFlow_conn (c : Collab) (d : Dialer) (dc : DualConn)
    (h : (dialSplitFlow c d).conn = some dc) : dc = dialed c d := by
  rcases dialSplitFlow_paths c d with ⟨e1, -, h1⟩ | ⟨e1, -, h1⟩ | ⟨e1, -, h1⟩ | ⟨e1, -, h1⟩ |
    ⟨e1, -, h1⟩ | ⟨e1, -, h1⟩ | h1 <;> rw [h1] at h <;>
    simp only [Option.some.injEq, reduceCtorEq] at h
  exact h.symm

/-! ## The close-propagation goroutine and `Close` -/

/-- C6: for a `DualConn` with both flows set and a terminal error `e`: when the
goroutine observes the closed signal of the reader, whose terminal error is
`e`, it ends after exactly one call, `closeWithErrorOnce` on the writer with
the error "in paired readerConn: " followed by the message of `e`, the reader
being left as it was; when it observes the closed signal of the writer it ends
after exactly one call, `closeWithErrorOnce` on the reader with "in paired
writerConn: " followed by the message of `e`, the writer being left as it was.
A partner that was open is closed by that call, with that error as its
terminal error. Every run that ends has made exactly one call, a close of the
flow that was not observed. -/
theorem watcher_closes_partner (dc : DualConn) (r w : TapdanceFlowConn) (e : GoError)
    (hr : dc.readerConn = some r) (hw : dc.writerConn = some w) :
    (r.closed = true → r.closeErr = some e →
      watcher dc .readerConn
        = .done { dc with writerConn := some (w.closeWithErrorOnce
                    (errorsNew ("in paired readerConn: " ++ e.Error))) }
            [.closeWithErrorOnce .writerConn (errorsNew ("in paired readerConn: " ++ e.Error))] ∧
      (w.closed = false →
        (w.closeWithErrorOnce (errorsNew ("in paired readerConn: " ++ e.Error))).closed = true ∧
        (w.closeWithErrorOnce (errorsNew ("in paired readerConn: " ++ e.Error))).closeErr
          = some (errorsNew ("in paired readerConn: " ++ e.Error)))) ∧
    (w.closed = true → w.closeErr = some e →
      watcher dc .writerConn
        = .done { dc with readerConn := some (r.closeWithErrorOnce
                    (errorsNew ("in paired writerConn: " ++ e.Error))) }
            [.closeWithErrorOnce .readerConn (errorsNew ("in paired writerConn: " ++ e.Error))] ∧
      (r.closed = false →
        (r.closeWithErrorOnce (errorsNew ("in paired writerConn: " ++ e.Error))).closed = true ∧
        (r.closeWithErrorOnce (errorsNew ("in paired writerConn: " ++ e.Error))).closeErr
          = some (errorsNew ("in paired writerConn: " ++ e.Error)))) ∧
    (∀ observed dc1 calls, watcher dc observed = .done dc1 calls →
      ∃ who cause, calls = [.closeWithErrorOnce who cause] ∧ who ≠ observed) := by
  refine ⟨?_, ?_, ?_⟩
  · intro hc he
    refine ⟨by simp [watcher, hr, hw, hc, he], ?_⟩
    intro ho
    simp [TapdanceFlowConn.closeWithErrorOnce, ho]
  · intro hc he
    refine ⟨by simp [watcher, hr, hw, hc, he], ?_⟩
    intro ho
    simp [TapdanceFlowConn.closeWithErrorOnce, ho]
  · intro observed dc1 calls hrun
    simp only [watcher, hr, hw] at hrun
    cases observed
    · rcases hcl : r.closed <;> rcases hce : r.closeErr with _ | e1 <;>
        simp [hcl, hce] at hrun
      exact ⟨_, _, hrun.2.symm, by decide⟩
    · rcases hcl : w.closed <;> rcases hce : w.closeErr with _ | e1 <;>
        simp [hcl, hce] at hrun
      exact ⟨_, _, hrun.2.symm, by decide⟩

theorem watcher_closes_partner_witness :
    (writerResetConn.readerConn = happyConn.readerConn ∧
      writerResetConn.writerConn
        = some ((writerAcquired (mock none (some "decoy#7")) none).1.closeWithErrorOnce
            ⟨"peer reset"⟩)) ∧
    watcher writerResetConn .writerConn
      = .done { writerResetConn with
                readerConn := some ((readerYielded (mock none (some "decoy#7")) none).1.closeWithErrorOnce
                  ⟨"in paired writerConn: peer reset"⟩) }
          [.closeWithErrorOnce .readerConn ⟨"in paired writerConn: peer reset"⟩] :=
  ⟨⟨rfl, rfl⟩,
   ((watcher_closes_partner writerResetConn (readerYielded (mock none (some "decoy#7")) none).1
      ((writerAcquired (mock none (some "decoy#7")) none).1.closeWithErrorOnce ⟨"peer reset"⟩)
      ⟨"peer reset"⟩ rfl rfl).2.1 rfl rfl).1⟩

/-- C7, as the spec states it, fails: on the happy-path `DualConn`, `Close`
makes one call, on the reader, and returns with the writer flow as it was,
open; so it is not true that every `Close` of a successfully constructed
`DualConn` leaves both flows closed. -/
theorem close_closes_both_fails :
    (dialSplitFlow (mock none (some "decoy#7")) none).conn = some happyConn ∧
    (DualConn.Close (mock none (some "decoy#7")) happyConn).map (fun res => res.calls)
      = some [(.readerConn, .Close)] ∧
    (DualConn.Close (mock none (some "decoy#7")) happyConn).map
        (fun res => res.conn.writerConn.map (fun w => w.closed))
      = some (some false) ∧
    ¬ (∀ (c : Collab) (d : Dialer) (dc : DualConn) (res : CallResult (Option GoError)),
        (dialSplitFlow c d).conn = some dc → DualConn.Close c dc = some res →
        ∃ r w, res.conn.readerConn = some r ∧ res.conn.writerConn = some w ∧
          r.closed = true ∧ w.closed = true) := by
  refine ⟨by decide, by decide, by decide, ?_⟩
  intro H
  obtain ⟨r, w, -, hw, -, hcl⟩ :=
    H (mock none (some "decoy#7")) none happyConn
      ⟨{ happyConn with
          readerConn := happyConn.readerConn.map
            (fun r => r.closeWithErrorOnce ⟨"closed by application layer"⟩) },
        some ⟨"closed by application layer"⟩, [(.readerConn, .Close)]⟩
      (by decide) (by decide)
  have hw2 : w = (writerAcquired (mock none (some "decoy#7")) none).1 :=
    (Option.some.inj hw).symm
  rw [hw2] at hcl
  exact absurd hcl (by decide)

/-- C7, amended: in every state `x` of a successfully constructed `DualConn`
(its embedded `Conn` bound as `dialSplitFlow` bound it, both flows set),
`Close` is the `Close` of the reader flow alone: it goes through the latch of
the reader, returns the terminal error the latch holds and makes no call on
the writer, which is left as it was. When both flows are open, that call closes
the reader; the goroutine, observing the closed signal of the reader, then
closes the writer, once, with "in paired readerConn: " followed by the message
of the terminal error of the reader; before and after the goroutine has run, a
later `Close` changes neither flow and returns what the first `Close` returned.
Whenever the reader is closed, `Close` changes nothing and returns the terminal
error of the reader. -/
theorem close_is_reader_close (c : Collab) (d : Dialer) (dc : DualConn)
    (h : (dialSplitFlow c d).conn = some dc)
    (x : DualConn) (r w : TapdanceFlowConn)
    (hc : x.Conn = dc.Conn) (hr : x.readerConn = some r) (hw : x.writerConn = some w) :
    DualConn.Close c x
      = some ⟨{ x with readerConn := some (r.closeWithErrorOnce c.appCloseCause) },
          (r.closeWithErrorOnce c.appCloseCause).closeErr, [(.readerConn, .Close)]⟩ ∧
    (r.closed = false → w.closed = false →
      (r.closeWithErrorOnce c.appCloseCause).closed = true ∧
      (r.closeWithErrorOnce c.appCloseCause).closeErr = some c.appCloseCause ∧
      watcher { x with readerConn := some (r.closeWithErrorOnce c.appCloseCause) } .readerConn
        = .done { x with
                  readerConn := some (r.closeWithErrorOnce c.appCloseCause),
                  writerConn := some { w with
                    closed := true,
                    closeErr := some (errorsNew ("in paired readerConn: " ++ c.appCloseCause.Error)) } }
            [.closeWithErrorOnce .writerConn
              (errorsNew ("in paired readerConn: " ++ c.appCloseCause.Error))] ∧
      DualConn.Close c { x with readerConn := some (r.closeWithErrorOnce c.appCloseCause) }
        = some ⟨{ x with readerConn := some (r.closeWithErrorOnce c.appCloseCause) },
            (r.closeWithErrorOnce c.appCloseCause).closeErr, [(.readerConn, .Close)]⟩ ∧
      DualConn.Close c { x with
          readerConn := some (r.closeWithErrorOnce c.appCloseCause),
          writerConn := some { w with
            closed := true,
            closeErr := some (errorsNew ("in paired readerConn: " ++ c.appCloseCause.Error)) } }
        = some ⟨{ x with
              readerConn := some (r.closeWithErrorOnce c.appCloseCause),
              writerConn := some { w with
                closed := true,
                closeErr := some (errorsNew ("in paired readerConn: " ++ c.appCloseCause.Error)) } },
            (r.closeWithErrorOnce c.appCloseCause).closeErr, [(.readerConn, .Close)]⟩) ∧
    (r.closed = true → DualConn.Close c x = some ⟨x, r.closeErr, [(.readerConn, .Close)]⟩) := by
  have hdc := dialSplitFlow_conn c d dc h
  subst hdc
  have hc1 : x.Conn = some .readerConn := hc
  refine ⟨?_, ?_, ?_⟩
  · simp [DualConn.Close, DualConn.promoted, DualConn.flow, DualConn.setFlow,
      TapdanceFlowConn.Close, hc1, hr]
  · intro hro hwo
    refine ⟨?_, ?_, ?_, ?_, ?_⟩
    · simp [TapdanceFlowConn.closeWithErrorOnce, hro]
    · simp [TapdanceFlowConn.closeWithErrorOnce, hro]
    · simp [watcher, hw, TapdanceFlowConn.closeWithErrorOnce, hro, hwo, GoError.Error]
    · simp [DualConn.Close, DualConn.promoted, DualConn.flow, DualConn.setFlow,
        TapdanceFlowConn.Close, hc1, TapdanceFlowConn.closeWithErrorOnce, hro]
    · simp [DualConn.Close, DualConn.promoted, DualConn.flow, DualConn.setFlow,
        TapdanceFlowConn.Close, hc1, TapdanceFlowConn.closeWithErrorOnce, hro]
  · intro hcl
    cases x
    simp_all [DualConn.Close, DualConn.promoted, DualConn.flow, DualConn.setFlow,
      TapdanceFlowConn.Close, TapdanceFlowConn.closeWithErrorOnce]

theorem close_is_reader_close_witness :
    ((dialSplitFlow (mock none (some "decoy#7")) none).conn = some happyConn ∧
      happyConn.readerConn = some (readerYielded (mock none (some "decoy#7")) none).1 ∧
      happyConn.writerConn = some (writerAcquired (mock none (some "decoy#7")) none).1) ∧
    DualConn.Close (mock none (some "decoy#7")) happyConn
      = some ⟨{ happyConn with
            readerConn := some ((readerYielded (mock none (some "decoy#7")) none).1.closeWithErrorOnce
              ⟨"closed by application layer"⟩) },
          some ⟨"closed by application layer"⟩, [(.readerConn, .Close)]⟩ :=
  ⟨⟨by decide, rfl, rfl⟩,
   (close_is_reader_close (mock none (some "decoy#7")) none happyConn (by decide) happyConn
      (readerYielded (mock none (some "decoy#7")) none).1
      (writerAcquired (mock none (some "decoy#7")) none).1 rfl rfl rfl).1⟩

/-! ## Delegation of the socket surface -/

/-- C8: the code at the failing input. On the happy-path `DualConn`,
`SetWriteDeadline(5)` makes one call, on the reader, whose write deadline
becomes 5, and leaves the writer flow, which performs every `Write`, without a
write deadline; `SetDeadline(5)` likewise reaches the reader only. The comment
on `DualConn.Write` (lines 127-129) says that `Write` can be made to time out
through `SetDeadline` and `SetWriteDeadline`, so the code misses what the claim
and its own comment say: it is not true that after every `SetWriteDeadline(t)`
the write deadline of the writer flow is `t`. -/
theorem setWriteDeadline_reaches_writer_fails :
    (dialSplitFlow (mock none (some "decoy#7")) none).conn = some happyConn ∧
    (DualConn.SetWriteDeadline (mock none (some "decoy#7")) happyConn 5).map
        (fun res => res.calls)
      = some [(.readerConn, .SetWriteDeadline 5)] ∧
    (DualConn.SetWriteDeadline (mock none (some "decoy#7")) happyConn 5).map
        (fun res => res.conn.readerConn.map (fun r => r.writeDeadline))
      = some (some (some 5)) ∧
    (DualConn.SetWriteDeadline (mock none (some "decoy#7")) happyConn 5).map
        (fun res => res.conn.writerConn.map (fun w => w.writeDeadline))
      = some (some none) ∧
    (DualConn.SetDeadline (mock none (some "decoy#7")) happyConn 5).map
        (fun res => (res.calls, res.conn.writerConn.map (fun w => w.writeDeadline)))
      = some ([(.readerConn, .SetDeadline 5)], some none) ∧
    ¬ (∀ (c : Collab) (d : Dialer) (dc : DualConn) (t : Nat)
        (res : CallResult (Option GoError)),
        (dialSplitFlow c d).conn = some dc → DualConn.SetWriteDeadline c dc t = some res →
        ∃ w, res.conn.writerConn = some w ∧ w.writeDeadline = some t) := by
  refine ⟨by decide, by decide, by decide, by decide, by decide, ?_⟩
  intro H
  obtain ⟨w, hw, hdl⟩ :=
    H (mock none (some "decoy#7")) none happyConn 5
      ⟨{ happyConn with
          readerConn := happyConn.readerConn.map (fun r => { r with writeDeadline := some 5 }) },
        none, [(.readerConn, .SetWriteDeadline 5)]⟩
      (by decide) (by decide)
  have hw2 : w = (writerAcquired (mock none (some "decoy#7")) none).1 :=
    (Option.some.inj hw).symm
  rw [hw2] at hdl
  exact absurd hdl (by decide)

/-- The methods promoted from the embedded `Conn`, as the code performs them:
in every state `x` of a successfully constructed `DualConn` and for every
deadline `t`, `LocalAddr`, `RemoteAddr`, `SetDeadline(t)`, `SetReadDeadline(t)`
and `SetWriteDeadline(t)` are each one call on the reader flow, whose effect
and result they take over, and none on the writer flow. -/
theorem promoted_methods_on_reader (c : Collab) (d : Dialer) (dc : DualConn)
    (h : (dialSplitFlow c d).conn = some dc)
    (x : DualConn) (r w : TapdanceFlowConn) (t : Nat)
    (hc : x.Conn = dc.Conn) (hr : x.readerConn = some r) (hw : x.writerConn = some w) :
    DualConn.LocalAddr c x = some ⟨x, c.localAddr r, [(.readerConn, .LocalAddr)]⟩ ∧
    DualConn.RemoteAddr c x = some ⟨x, c.remoteAddr r, [(.readerConn, .RemoteAddr)]⟩ ∧
    DualConn.SetDeadline c x t
      = some ⟨{ x with readerConn := some (c.flowSetDeadline r t).1 },
          (c.flowSetDeadline r t).2, [(.readerConn, .SetDeadline t)]⟩ ∧
    DualConn.SetReadDeadline c x t
      = some ⟨{ x with readerConn := some (c.flowSetReadDeadline r t).1 },
          (c.flowSetReadDeadline r t).2, [(.readerConn, .SetReadDeadline t)]⟩ ∧
    DualConn.SetWriteDeadline c x t
      = some ⟨{ x with readerConn := some (c.flowSetWriteDeadline r t).1 },
          (c.flowSetWriteDeadline r t).2, [(.readerConn, .SetWriteDeadline t)]⟩ ∧
    (∀ res, DualConn.SetWriteDeadline c x t = some res → res.conn.writerConn = some w) := by
  have hdc := dialSplitFlow_conn c d dc h
  subst hdc
  have hc1 : x.Conn = some .readerConn := hc
  cases x
  simp_all [DualConn.LocalAddr, DualConn.RemoteAddr, DualConn.SetDeadline,
    DualConn.SetReadDeadline, DualConn.SetWriteDeadline, DualConn.promoted, DualConn.flow,
    DualConn.setFlow]

/-- C9: in every state `x` of a successfully constructed `DualConn` and for
every byte slice `b`, the empty one included, `Write(b)` is exactly one call
`Write(b)` on the writer flow, with `b` as given; it returns the pair the
writer flow returned and leaves the reader flow as it was. `Read(b)` is exactly
one call `Read(b)` on the reader flow, returns what the reader flow returned
and leaves the writer flow as it was. -/
theorem write_on_writer_read_on_reader (c : Collab) (d : Dialer) (dc : DualConn)
    (h : (dialSplitFlow c d).conn = some dc)
    (x : DualConn) (r w : TapdanceFlowConn) (b : List Nat)
    (hc : x.Conn = dc.Conn) (hr : x.readerConn = some r) (hw : x.writerConn = some w) :
    DualConn.Write c x b
      = some ⟨{ x with writerConn := some (c.flowWrite w b).1 }, (c.flowWrite w b).2,
          [(.writerConn, .Write b)]⟩ ∧
    DualConn.Read c x b
      = some ⟨{ x with readerConn := some (c.flowRead r b).1 }, (c.flowRead r b).2,
          [(.readerConn, .Read b)]⟩ ∧
    (∀ res, DualConn.Write c x b = some res →
      res.conn.readerConn = some r ∧ res.ret = (w.Write c b).2) ∧
    (∀ res, DualConn.Read c x b = some res →
      res.conn.writerConn = some w ∧ res.ret = (r.Read c b).2) ∧
    DualConn.Write c x []
      = some ⟨{ x with writerConn := some (c.flowWrite w []).1 }, (c.flowWrite w []).2,
          [(.writerConn, .Write [])]⟩ := by
  have hdc := dialSplitFlow_conn c d dc h
  subst hdc
  have hc1 : x.Conn = some .readerConn := hc
  cases x
  simp_all [DualConn.Write, DualConn.Read, DualConn.promoted, DualConn.flow, DualConn.setFlow,
    TapdanceFlowConn.Write, TapdanceFlowConn.Read]

theorem write_on_writer_read_on_reader_witness :
    ((dialSplitFlow (mock none (some "decoy#7")) none).conn = some happyConn ∧
      happyConn.readerConn = some (readerYielded (mock none (some "decoy#7")) none).1 ∧
      happyConn.writerConn = some (writerAcquired (mock none (some "decoy#7")) none).1) ∧
    DualConn.Write (mock none (some "decoy#7")) happyConn [0xAA, 0xBB]
      = some ⟨happyConn, (2, none), [(.writerConn, .Write [0xAA, 0xBB])]⟩ :=
  ⟨⟨by decide, rfl, rfl⟩,
   (write_on_writer_read_on_reader (mock none (some "decoy#7")) none happyConn (by decide)
      happyConn (readerYielded (mock none (some "decoy#7")) none).1
      (writerAcquired (mock none (some "decoy#7")) none).1 [0xAA, 0xBB] rfl rfl rfl).1⟩

/-! ## `idStr` -/

theorem digit_facts (n : Nat) (h : n < 10) :
    (digits.getD n '0').isDigit = true ∧ (digits.getD n '0').toNat - 48 = n ∧
    (digits.getD n '0' = '0' → n = 0) := by
  interval_cases n <;> decide

theorem decimalValue_snoc (cs : List Char) (ch : Char) :
    decimalValue (cs ++ [ch]) = 10 * decimalValue cs + (ch.toNat - 48) := by
  simp [decimalValue, List.foldl_append]

theorem formatBits_spec (fuel : Nat) :
    ∀ (u : Nat) (a : List Char), u < 10 ^ (fuel + 1) →
      ∃ pre, formatBits fuel u a = pre ++ a ∧ 1 ≤ pre.length ∧
        (∀ ch ∈ pre, ch.isDigit = true) ∧ decimalValue pre = u ∧
        (pre.head? = some '0' → u = 0) ∧ (u = 0 → pre = ['0']) ∧
        (u ≠ 0 → 10 ^ (pre.length - 1) ≤ u) := by
  induction fuel with
  | zero =>
    intro u a hu
    have hu10 : u < 10 := by simpa using hu
    obtain ⟨h1, h2, h3⟩ := digit_facts u hu10
    refine ⟨[digits.getD u '0'], ?_, by simp, ?_, ?_, ?_, ?_, ?_⟩
    · simp [formatBits, Nat.mod_eq_of_lt hu10]
    · simpa using h1
    · simpa [decimalValue] using h2
    · simpa using h3
    · rintro rfl
      rfl
    · intro hne
      simp
      omega
  | succ fuel ih =>
    intro u a hu
    by_cases hge : u ≥ 10
    · have hdiv : u / 10 < 10 ^ (fuel + 1) := by
        rw [Nat.div_lt_iff_lt_mul (by norm_num)]
        calc u < 10 ^ (fuel + 1 + 1) := hu
          _ = 10 ^ (fuel + 1) * 10 := by ring
      obtain ⟨pre, hp, hlen, hdig, hval, hhead, -, hpow⟩ :=
        ih (u / 10) (digits.getD (u % 10) '0' :: a) hdiv
      obtain ⟨h1, h2, -⟩ := digit_facts (u % 10) (Nat.mod_lt _ (by norm_num))
      have hne : u / 10 ≠ 0 := by omega
      refine ⟨pre ++ [digits.getD (u % 10) '0'], ?_, ?_, ?_, ?_, ?_, ?_, ?_⟩
      · have hstep : formatBits (fuel + 1) u a
            = formatBits fuel (u / 10) (digits.getD (u % 10) '0' :: a) := by
          rw [formatBits]
          exact if_pos hge
        rw [hstep, hp, List.append_assoc]
        rfl
      · simp
      · intro ch hch
        rcases List.mem_append.1 hch with hch | hch
        · exact hdig ch hch
        · rw [List.mem_singleton] at hch
          rw [hch]
          exact h1
      · rw [decimalValue_snoc, hval, h2]
        omega
      · intro hh
        have : pre.head? = some '0' := by
          cases pre with
          | nil => simp at hlen
          | cons p ps => simpa using hh
        exact absurd (hhead this) hne
      · intro h0
        omega
      · intro _
        have h3 := hpow hne
        have h4 : (pre ++ [digits.getD (u % 10) '0']).length - 1 = (pre.length - 1) + 1 := by
          simp
          omega
        rw [h4, pow_succ]
        omega
    · have hu10 : u < 10 := by omega
      obtain ⟨h1, h2, h3⟩ := digit_facts u hu10
      refine ⟨[digits.getD u '0'], ?_, by simp, ?_, ?_, ?_, ?_, ?_⟩
      · simp [formatBits, hge]
      · simpa using h1
      · simpa [decimalValue] using h2
      · simpa using h3
      · rintro rfl
        rfl
      · intro hne
        simp
        omega

/-- C10: for every session id below 2^64, `idStr` is "[Session ", the decimal
digits of the session id and "]": between one and twenty characters, all
decimal digits, denoting the session id, without a leading zero unless the
session id is 0, whose digits are "0"; the result matches
`^\[Session \d+\]$`. -/
theorem idStr_format (tdConn : DualConn) (h : tdConn.sessionId < 2 ^ 64) :
    ∃ ds : List Char,
      tdConn.idStr = "[Session " ++ String.mk ds ++ "]" ∧
      1 ≤ ds.length ∧ ds.length ≤ 20 ∧
      (∀ ch ∈ ds, ch.isDigit = true) ∧
      decimalValue ds = tdConn.sessionId ∧
      (ds.head? = some '0' → tdConn.sessionId = 0) ∧
      (tdConn.sessionId = 0 → ds = ['0']) ∧
      matchesIdStr tdConn.idStr = true := by
  have hfuel : tdConn.sessionId < 10 ^ (tdConn.sessionId + 1) :=
    lt_trans (Nat.lt_pow_self (by norm_num : 1 < 10) tdConn.sessionId)
      (Nat.pow_lt_pow_right (by norm_num) (Nat.lt_succ_self _))
  obtain ⟨pre, hp, hlen, hdig, hval, hhead, hzero, hpow⟩ :=
    formatBits_spec tdConn.sessionId tdConn.sessionId [] hfuel
  have hid : tdConn.idStr = "[Session " ++ String.mk pre ++ "]" := by
    unfold DualConn.idStr FormatUint
    rw [Nat.mod_eq_of_lt h, hp, List.append_nil]
  refine ⟨pre, hid, hlen, ?_, hdig, hval, hhead, hzero, ?_⟩
  · by_contra hgt
    have hne : tdConn.sessionId ≠ 0 := by
      intro h0
      rw [hzero h0] at hgt
      simp at hgt
    have h1 := hpow hne
    have h2 : 10 ^ 20 ≤ 10 ^ (pre.length - 1) := Nat.pow_le_pow_right (by norm_num) (by omega)
    have h3 : (2 : Nat) ^ 64 < 10 ^ 20 := by norm_num
    omega
  · rw [hid]
    have hl : ("[Session " ++ String.mk pre ++ "]").toList
        = "[Session ".toList ++ (pre ++ [']']) := by
      simp [String.toList, String.data_append]
    have h9 : "[Session ".toList.length = 9 := by decide
    have hne : pre ≠ [] := by
      intro h0
      rw [h0] at hlen
      simp at hlen
    simp only [matchesIdStr, hl]
    rw [List.take_left' h9, List.drop_left' h9, List.getLast?_append, List.dropLast_concat]
    simp [hne]
    exact hdig

theorem idStr_format_witness :
    (42 : Nat) < 2 ^ 64 ∧
    DualConn.idStr ⟨some .readerConn, none, none, 42⟩ = "[Session 42]" ∧
    matchesIdStr (DualConn.idStr ⟨some .readerConn, none, none, 42⟩) = true := by
  refine ⟨by norm_num, by decide, ?_⟩
  obtain ⟨ds, -, -, -, -, -, -, -, hm⟩ :=
    idStr_format ⟨some .readerConn, none, none, 42⟩ (by norm_num)
  exact hm

end Tapdance
